import Mathlib

/-!
Verification of CartoRewind (src/script.js): a dual-panel synchronized map
viewer. We shallowly embed the data model and the operations the spec talks
about: the tile catalog and historical-layer switcher (`updateHistoricalLayer`),
the view-sync handler with its re-entrancy guard (`syncView`), the cursor
mirroring handler (`updateCursors`), the city resolver (`getCurrentCity`) and
the map-initialization view configuration (`initMaps`).

JavaScript object-literal lookups are embedded as association-list lookups;
`undefined` and `null` both collapse to `none`; JS truthiness of a
string-or-null value is `jsFalsy`.
-/

namespace CartoRewind

/-! ## Configuration data (src/script.js lines 7-40) -/

/-- The `centerCoords` table: city key to default map center (lat, lng). -/
def centerCoords : List (String × (ℚ × ℚ)) :=
  [("munich", (481351/10000, 115820/10000)),
   ("vienna", (482082/10000, 163738/10000)),
   ("enschede", (522215/10000, 68937/10000)),
   ("dresden", (510504/10000, 137373/10000))]

/-- A tile catalog: city key to (year label to folder-or-null).
`some (some f)` is a folder entry, `some none` is an explicit `null` marker,
and an absent year or city key gives `none` on lookup. -/
abbrev Catalog := List (String × List (String × Option String))

/-- The `TILE_FOLDER_MAP` constant from src/script.js. -/
def TILE_FOLDER_MAP : Catalog :=
  [("munich", [("1400", none), ("1500", none), ("1600", none),
               ("1888", some "muc-1888")]),
   ("vienna", [("1800", some "vie-1800-folder"), ("1833", some "v_1833")]),
   ("dresden", [("1750", some "dre-1750-folder"), ("1833", some "d_1833"),
                ("1878", some "dre-1878-folder")]),
   ("enschede", [("1830", some "ens-1830-folder"),
                 ("1900", some "ens-1900-folder")])]

/-- The global `bounds`: south-west (35, -10) to north-east (71, 40). -/
def bounds : (ℚ × ℚ) × (ℚ × ℚ) := ((35, -10), (71, 40))

/-- JS truthiness test on a string-or-null-or-undefined value, as used by
`if (!folder)`: `null`, `undefined` and the empty string are all falsy. -/
def jsFalsy : Option String → Bool
  | none => true
  | some s => s == ""

/-- The folder lookup on line 163,
`TILE_FOLDER_MAP[city] ? TILE_FOLDER_MAP[city][year] : null`,
restricted to own-property access: a missing city, a missing year entry and
an explicit `null` all give `none`. This is the fragment on which the
own-property claims operate; `folderValJs` below is the full-fidelity read
that also accounts for the JS prototype chain. -/
def catalogLookup (cat : Catalog) (city year : String) : Option String :=
  match cat.lookup city with
  | none => none
  | some yearMap =>
    match yearMap.lookup year with
    | none => none
    | some v => v

/-- The property names every plain JS object literal inherits from
`Object.prototype`: indexing an object literal with one of these names
yields the inherited member (a truthy function, or for `__proto__` the
prototype object) rather than `undefined`. -/
def protoKeys : List String :=
  ["constructor", "hasOwnProperty", "isPrototypeOf", "propertyIsEnumerable",
   "toLocaleString", "toString", "valueOf", "__proto__",
   "__defineGetter__", "__defineSetter__", "__lookupGetter__",
   "__lookupSetter__"]

/-- The result of reading a property of a plain JS object literal: an own
property's value, a member inherited from `Object.prototype` (recorded by
its name; always a truthy non-string object), or `undefined`. -/
inductive PropRead (α : Type) where
  | own : α → PropRead α
  | inherited : String → PropRead α
  | undefRead : PropRead α
deriving Repr, DecidableEq

/-- Property read `obj[key]` on an object literal, prototype chain
included: own properties shadow `Object.prototype`; a miss on a name in
`protoKeys` hits the inherited member; anything else is `undefined`. -/
def readProp {α : Type} (obj : List (String × α)) (key : String) :
    PropRead α :=
  match obj.lookup key with
  | some v => .own v
  | none => if key ∈ protoKeys then .inherited key else .undefRead

/-! ## Historical layer state machine (src/script.js lines 161-192) -/

/-- A Leaflet tile layer as far as this program configures one: an identity
for the instance, its URL template and the options passed at creation. -/
structure TileLayer where
  id : Nat
  url : String
  minZoom : Nat
  maxZoom : Nat
  tms : Bool
  noWrap : Bool
deriving Repr, DecidableEq

/-- The mutable state `updateHistoricalLayer` touches: the `histLayer`
global (null or a layer), the set of historical layers attached to `map1`,
a fresh-id counter for layer creation, and the emitted `console.warn` log. -/
structure HistState where
  histLayer : Option TileLayer
  map1Layers : List Nat
  nextId : Nat
  warnings : List String
deriving Repr, DecidableEq

/-- The page-load state: `histLayer` starts null, no layer attached. -/
def initialHistState : HistState :=
  { histLayer := none, map1Layers := [], nextId := 0, warnings := [] }

/-- The `console.warn` message on line 167. -/
def warnMsg (city year : String) : String :=
  "Tiles for " ++ city ++ " year " ++ year ++
    " are not yet available. Showing background only."

/-- The `updateHistoricalLayer(city, year)` function, embedded over an
explicit catalog argument (the source reads the global `TILE_FOLDER_MAP`).
Falsy folder: warn, and if a layer exists remove it from map1 and null the
handle. Otherwise bind `tiles/<folder>/{z}/{x}/{y}.png`: an existing layer
is re-pointed in place via `setUrl`; a missing one is created with
minZoom 9, maxZoom 19, tms false, noWrap true, and added to map1. -/
def updateHistoricalLayer (cat : Catalog) (city year : String)
    (st : HistState) : HistState :=
  let folder := catalogLookup cat city year
  if jsFalsy folder then
    let st1 : HistState :=
      { st with warnings := st.warnings ++ [warnMsg city year] }
    match st1.histLayer with
    | some l =>
      { st1 with histLayer := none, map1Layers := st1.map1Layers.erase l.id }
    | none => st1
  else
    let tileUrl := "tiles/" ++ folder.getD "" ++ "/{z}/{x}/{y}.png"
    match st.histLayer with
    | some l => { st with histLayer := some { l with url := tileUrl } }
    | none =>
      { st with
        histLayer := some
          { id := st.nextId, url := tileUrl,
            minZoom := 9, maxZoom := 19, tms := false, noWrap := true },
        map1Layers := st.map1Layers ++ [st.nextId],
        nextId := st.nextId + 1 }

/-- The single-handle invariant: `histLayer` is null and no historical layer
is attached, or it holds one layer and exactly that layer is attached. -/
def histInv (st : HistState) : Prop :=
  match st.histLayer with
  | none => st.map1Layers = []
  | some l => st.map1Layers = [l.id]

/-- Projection of the state onto what the layer state machine observes:
the handle and the attachment, ignoring the diagnostics log. -/
def layerView (st : HistState) : Option TileLayer × List Nat :=
  (st.histLayer, st.map1Layers)

/-- The value of `TILE_FOLDER_MAP[city] ? TILE_FOLDER_MAP[city][year] : null`
under full JS property semantics: `nullv` (city misses both the table and
`Object.prototype`, so the conditional yields `null`), `undefv` (own city,
year misses both its catalog and `Object.prototype`), `strv` (own city and
own year entry: a folder string or the explicit `null` marker),
`protoMember` (own city, year names an inherited `Object.prototype` member
— a truthy function), or `hostRead` (the city itself names an inherited
member, so the year is then read off a built-in function object). -/
inductive FolderVal where
  | nullv : FolderVal
  | undefv : FolderVal
  | strv : Option String → FolderVal
  | protoMember : String → FolderVal
  | hostRead : String → String → FolderVal
deriving Repr, DecidableEq

/-- The folder expression on line 163 with prototype-chain fidelity. -/
def folderValJs (cat : Catalog) (city year : String) : FolderVal :=
  match readProp cat city with
  | .own yearMap =>
    match readProp yearMap year with
    | .own v => .strv v
    | .inherited k => .protoMember k
    | .undefRead => .undefv
  | .inherited k => .hostRead k year
  | .undefRead => .nullv

/-- The text a JS template literal renders for an inherited
`Object.prototype` method, per the NativeFunction form current engines
produce; it stands in the constructed tile URL when a prototype member
leaks into the truthy branch. -/
def jsNativeFunctionString (k : String) : String :=
  "function " ++ k ++ "() \x7b [native code] \x7d"

/-- The falsy branch of `updateHistoricalLayer` (lines 166-175): warn, and
if a layer exists remove it from map1 and null the handle. -/
def absentStep (city year : String) (st : HistState) : HistState :=
  let st1 : HistState :=
    { st with warnings := st.warnings ++ [warnMsg city year] }
  match st1.histLayer with
  | some l =>
    { st1 with histLayer := none, map1Layers := st1.map1Layers.erase l.id }
  | none => st1

/-- The truthy branch of `updateHistoricalLayer` (lines 178-191): an
existing layer is re-pointed in place via `setUrl`; a missing one is
created with minZoom 9, maxZoom 19, tms false, noWrap true, and added to
map1. -/
def presentStep (tileUrl : String) (st : HistState) : HistState :=
  match st.histLayer with
  | some l => { st with histLayer := some { l with url := tileUrl } }
  | none =>
    { st with
      histLayer := some
        { id := st.nextId, url := tileUrl,
          minZoom := 9, maxZoom := 19, tms := false, noWrap := true },
      map1Layers := st.map1Layers ++ [st.nextId],
      nextId := st.nextId + 1 }

/-- `updateHistoricalLayer(city, year)` with prototype-chain fidelity:
`!folder` sends `null`, `undefined` and the empty string to the falsy
branch, while an inherited `Object.prototype` member is truthy and takes
the present branch. A `hostRead` — the city name itself hit an inherited
member, so the year is read from a built-in function object whose
properties are host-defined and include throwing accessors such as
`caller` — is outside the embedded fragment and yields `none`. -/
def updateHistoricalLayerJs (cat : Catalog) (city year : String)
    (st : HistState) : Option HistState :=
  match folderValJs cat city year with
  | .hostRead _ _ => none
  | .nullv => some (absentStep city year st)
  | .undefv => some (absentStep city year st)
  | .strv none => some (absentStep city year st)
  | .strv (some f) =>
    if f == "" then some (absentStep city year st)
    else some (presentStep ("tiles/" ++ f ++ "/{z}/{x}/{y}.png") st)
  | .protoMember k =>
    some (presentStep
      ("tiles/" ++ jsNativeFunctionString k ++ "/{z}/{x}/{y}.png") st)

/-! ## View synchronization (src/script.js lines 107-126) -/

/-- The two map panels. -/
inductive Panel where
  | one
  | two
deriving Repr, DecidableEq

/-- The opposite panel: the listeners pair map1 with map2 and back. -/
def Panel.other : Panel → Panel
  | .one => .two
  | .two => .one

/-- A map view: center (getCenter) and zoom level (getZoom). -/
structure View where
  lat : ℚ
  lng : ℚ
  zoom : ℕ
deriving Repr, DecidableEq

/-- A record of one `setView` call: which panel, which view, and the
`animate` option it was given. -/
structure SetViewCall where
  target : Panel
  view : View
  animate : Bool
deriving Repr, DecidableEq

/-- The state the sync logic touches: both panels' views, the shared
`syncing` guard flag and a log of the `setView` calls performed. -/
structure SyncState where
  view1 : View
  view2 : View
  syncing : Bool
  calls : List SetViewCall
deriving Repr, DecidableEq

/-- Read a panel's current view. -/
def viewOf : Panel → SyncState → View
  | .one, st => st.view1
  | .two, st => st.view2

/-- Write a panel's view (the raw viewport mutation of `setView`). -/
def writeView : Panel → View → SyncState → SyncState
  | .one, v, st => { st with view1 := v }
  | .two, v, st => { st with view2 := v }

/-- The `syncView(fromMap, toMap)` handler. `setView` with `animate: false`
applies the view immediately and synchronously fires a move event on the
target panel, whose own listener is `syncView(toMap, fromMap)`: that nested
dispatch is the recursive call, bounded by fuel (the guard cuts it off
after one level regardless of the fuel supplied). -/
def syncView : Nat → Panel → Panel → SyncState → SyncState
  | 0, _, _, st => st
  | fuel + 1, fromP, toP, st =>
    if st.syncing then st
    else
      let st1 := { st with syncing := true }
      let center := viewOf fromP st1
      let st2 := writeView toP center st1
      let st3 := { st2 with calls := st2.calls ++ [⟨toP, center, false⟩] }
      let st4 := syncView fuel toP fromP st3
      { st4 with syncing := false }

/-- A move or zoom event on panel `p`: its listener runs
`syncView(p, p.other)` (lines 125-126). -/
def onMoveEvent (fuel : Nat) (p : Panel) (st : SyncState) : SyncState :=
  syncView fuel p p.other st

/-! ## Cursor mirroring (src/script.js lines 141-152) -/

/-- A panel container's bounding rectangle, as far as the handler reads it. -/
structure Rect where
  left : ℚ
  top : ℚ
deriving Repr, DecidableEq

/-- The two cursor indicator elements' (left, top) style positions. -/
structure CursorState where
  cursor1 : ℚ × ℚ
  cursor2 : ℚ × ℚ
deriving Repr, DecidableEq

/-- The `updateCursors(e)` handler: read the bounding rect of the panel the
event targets, form the pointer offset relative to its top-left corner, and
assign that offset to both cursor elements. -/
def updateCursors (rects : Panel → Rect) (target : Panel)
    (clientX clientY : ℚ) (st : CursorState) : CursorState :=
  let mapRect := rects target
  let x := clientX - mapRect.left
  let y := clientY - mapRect.top
  { st with cursor1 := (x, y), cursor2 := (x, y) }

/-! ## City resolver (src/script.js lines 197-212) -/

/-- Test whether `pat` is a leading segment of the second list. -/
def startsWithChars : List Char → List Char → Bool
  | [], _ => true
  | _ :: _, [] => false
  | p :: ps, c :: cs => p == c && startsWithChars ps cs

/-- JS `s.replace(pat, '')` with a string pattern: scanning left to right,
remove the first occurrence of `pat` and keep everything else. -/
def removeFirstOcc (pat : List Char) : List Char → List Char
  | [] => []
  | c :: cs =>
    if startsWithChars pat (c :: cs) then (c :: cs).drop pat.length
    else c :: removeFirstOcc pat cs

/-- JS `s.split(sep)` for a one-character separator: always a non-empty
list of (possibly empty) segments. -/
def splitOnChar (sep : Char) : List Char → List (List Char)
  | [] => [[]]
  | c :: cs =>
    if c == sep then [] :: splitOnChar sep cs
    else
      match splitOnChar sep cs with
      | [] => [[c]]
      | x :: xs => (c :: x) :: xs

/-- The filename derivation: `pathname.split('/').pop().replace('.html', '')`. -/
def pageFilename (pathname : String) : String :=
  String.mk (removeFirstOcc ".html".toList
    ((splitOnChar '/' pathname.toList).getLastD []))

/-- The `cityMap` table inside `getCurrentCity`. -/
def cityMap : List (String × String) :=
  [("munich", "munich"), ("vienna", "vienna"), ("dresden", "dresden"),
   ("enschede", "enschede"), ("index", "munich"), ("", "munich")]

/-- What `cityMap[filename] || 'munich'` evaluates to: a city string, or —
when the filename names an inherited `Object.prototype` member, which is
truthy, so the `||` default does not fire — that leaked prototype member. -/
inductive CityResolution where
  | city : String → CityResolution
  | protoLeak : String → CityResolution
deriving Repr, DecidableEq

/-- The table lookup with default on line 211, `cityMap[filename] ||
'munich'`, under full JS property semantics: an own value is returned
unless falsy (the table's values are all non-empty strings, so never); a
miss falls through `Object.prototype`, leaking the truthy inherited member
for a name in `protoKeys` and defaulting to munich otherwise. -/
def cityResolve (filename : String) : CityResolution :=
  match readProp cityMap filename with
  | .own v => if v == "" then .city "munich" else .city v
  | .inherited k => .protoLeak k
  | .undefRead => .city "munich"

/-- `getCurrentCity()`, over an explicit pathname argument (the source
reads `window.location.pathname`). -/
def getCurrentCity (pathname : String) : CityResolution :=
  cityResolve (pageFilename pathname)

/-! ## Map initialization views (src/script.js lines 50-79) -/

/-- The per-map construction options and initial view that `initMaps` gives
to each of the two `L.map(...).setView(...)` calls. -/
structure MapConfig where
  center : ℚ × ℚ
  zoom : ℕ
  maxBounds : (ℚ × ℚ) × (ℚ × ℚ)
  zoomControl : Bool
  attributionControl : Bool
deriving Repr, DecidableEq

/-- The view configuration both maps receive in `initMaps(city, _)`:
`centerCoords[city]` at zoom 13, constrained to `bounds`, with zoom and
attribution controls disabled. `none` when the city has no coordinate
entry (the source would pass `undefined` to `setView`). -/
def initMapViews (city : String) : Option (MapConfig × MapConfig) :=
  (centerCoords.lookup city).map fun c =>
    ({ center := c, zoom := 13, maxBounds := bounds,
       zoomControl := false, attributionControl := false },
     { center := c, zoom := 13, maxBounds := bounds,
       zoomControl := false, attributionControl := false })

/-! ## Helper lemmas -/

/-- A successful association-list lookup exhibits a member pair. -/
theorem lookup_mem {α β : Type} [BEq α] [LawfulBEq α] {l : List (α × β)}
    {k : α} {b : β} (h : l.lookup k = some b) : (k, b) ∈ l := by
  rw [List.lookup_eq_some_iff] at h
  obtain ⟨l₁, l₂, rfl, -⟩ := h
  simp

/-- Every folder actually present in `TILE_FOLDER_MAP` is a non-empty
string, so a successful catalog lookup never returns the empty string. -/
theorem tileFolder_ne_empty {city year f : String}
    (h : catalogLookup TILE_FOLDER_MAP city year = some f) : f ≠ "" := by
  intro hf
  subst hf
  unfold catalogLookup at h
  cases hc : TILE_FOLDER_MAP.lookup city with
  | none => simp [hc] at h
  | some yc =>
    simp only [hc] at h
    cases hy : yc.lookup year with
    | none => simp [hy] at h
    | some v =>
      simp only [hy] at h
      subst h
      have h1 : yc ∈ TILE_FOLDER_MAP.map Prod.snd :=
        List.mem_map_of_mem Prod.snd (lookup_mem hc)
      have h2 : (some "" : Option String) ∈ yc.map Prod.snd :=
        List.mem_map_of_mem Prod.snd (lookup_mem hy)
      have h3 : ∀ l ∈ TILE_FOLDER_MAP.map Prod.snd,
          (some "" : Option String) ∉ l.map Prod.snd := by decide
      exact h3 yc h1 h2

/-- `jsFalsy` rejects a looked-up folder of `TILE_FOLDER_MAP`. -/
theorem jsFalsy_of_tileFolder {city year f : String}
    (h : catalogLookup TILE_FOLDER_MAP city year = some f) :
    jsFalsy (some f) = false := by
  simpa [jsFalsy] using tileFolder_ne_empty h

/-- On a falsy own-property lookup `updateHistoricalLayer` is exactly the
absent step. -/
theorem updateHistoricalLayer_falsy_eq (cat : Catalog) (city year : String)
    (st : HistState) (h : jsFalsy (catalogLookup cat city year) = true) :
    updateHistoricalLayer cat city year st = absentStep city year st := by
  unfold updateHistoricalLayer absentStep
  simp [h]

/-- On a truthy own-property lookup `updateHistoricalLayer` is exactly the
present step for the constructed URL. -/
theorem updateHistoricalLayer_truthy_eq (cat : Catalog) (city year f : String)
    (st : HistState) (h : catalogLookup cat city year = some f)
    (hne : f ≠ "") :
    updateHistoricalLayer cat city year st
      = presentStep ("tiles/" ++ f ++ "/{z}/{x}/{y}.png") st := by
  have hf : jsFalsy (some f) = false := by
    simpa [jsFalsy] using hne
  unfold updateHistoricalLayer presentStep
  simp [h, hf]

/-- Wherever neither level of the lookup falls through to the prototype
chain — own city with either an own year entry or a year outside
`protoKeys`, or a missing city outside `protoKeys` — the full-fidelity
switcher agrees with the own-property `updateHistoricalLayer`. -/
theorem updateHistoricalLayerJs_agrees (cat : Catalog) (city year : String)
    (st : HistState)
    (hcity : (cat.lookup city).isSome = true ∨ city ∉ protoKeys)
    (hyear : ∀ ym, cat.lookup city = some ym →
      (ym.lookup year).isSome = true ∨ year ∉ protoKeys) :
    updateHistoricalLayerJs cat city year st
      = some (updateHistoricalLayer cat city year st) := by
  cases hc : cat.lookup city with
  | none =>
    have hp : city ∉ protoKeys := by
      rcases hcity with h | h
      · rw [hc] at h; simp at h
      · exact h
    have h1 : jsFalsy (catalogLookup cat city year) = true := by
      unfold catalogLookup; simp [hc, jsFalsy]
    rw [updateHistoricalLayer_falsy_eq cat city year st h1]
    unfold updateHistoricalLayerJs folderValJs readProp
    simp [hc, hp]
  | some ym =>
    cases hy : ym.lookup year with
    | none =>
      have hp : year ∉ protoKeys := by
        rcases hyear ym hc with h | h
        · rw [hy] at h; simp at h
        · exact h
      have h1 : jsFalsy (catalogLookup cat city year) = true := by
        unfold catalogLookup; simp [hc, hy, jsFalsy]
      rw [updateHistoricalLayer_falsy_eq cat city year st h1]
      unfold updateHistoricalLayerJs folderValJs readProp
      simp [hc, hy, hp]
    | some v =>
      cases v with
      | none =>
        have h1 : jsFalsy (catalogLookup cat city year) = true := by
          unfold catalogLookup; simp [hc, hy, jsFalsy]
        rw [updateHistoricalLayer_falsy_eq cat city year st h1]
        unfold updateHistoricalLayerJs folderValJs readProp
        simp [hc, hy]
      | some f =>
        have hcl : catalogLookup cat city year = some f := by
          unfold catalogLookup; simp [hc, hy]
        by_cases he : f = ""
        · subst he
          have h1 : jsFalsy (catalogLookup cat city year) = true := by
            rw [hcl]; rfl
          rw [updateHistoricalLayer_falsy_eq cat city year st h1]
          unfold updateHistoricalLayerJs folderValJs readProp
          simp [hc, hy]
        · rw [updateHistoricalLayer_truthy_eq cat city year f st hcl he]
          unfold updateHistoricalLayerJs folderValJs readProp
          simp [hc, hy, he]

/-! ## Claim theorems: historical layer switcher -/

/-- C2 counterexample: munich has a catalog but that catalog has no entry
for the year toString — the claim's hypothesis holds — yet the prototype
chain makes `TILE_FOLDER_MAP['munich']['toString']` the inherited truthy
`Object.prototype.toString`, so the source takes the Present branch with
no warning: the layer is not Absent, refuting the claim as stated. -/
theorem updateHistoricalLayer_absent_cex :
    (TILE_FOLDER_MAP.lookup "munich").isSome = true ∧
    ((TILE_FOLDER_MAP.lookup "munich").getD []).lookup "toString" = none ∧
    updateHistoricalLayerJs TILE_FOLDER_MAP "munich" "toString"
        initialHistState
      = some
          { histLayer := some
              { id := 0,
                url := "tiles/" ++ jsNativeFunctionString "toString"
                  ++ "/{z}/{x}/{y}.png",
                minZoom := 9, maxZoom := 19, tms := false, noWrap := true },
            map1Layers := [0], nextId := 1, warnings := [] } := by
  decide

/-- C2 (amended): whenever the city has no catalog and its name is not an
`Object.prototype` property name, or its catalog has no entry for the year
and the year is not an `Object.prototype` property name, or the entry is
the explicit `null` marker, `updateHistoricalLayer` ends with the layer
Absent: a Present layer is detached from map1 and discarded, an Absent one
leaves the state unchanged apart from the diagnostics, and in both cases
the non-fatal warning is emitted. -/
theorem updateHistoricalLayerJs_absent (city year : String) (st : HistState)
    (h : (TILE_FOLDER_MAP.lookup city = none ∧ city ∉ protoKeys) ∨
         (∃ yc, TILE_FOLDER_MAP.lookup city = some yc ∧
            yc.lookup year = none ∧ year ∉ protoKeys) ∨
         (∃ yc, TILE_FOLDER_MAP.lookup city = some yc ∧
            yc.lookup year = some none)) :
    updateHistoricalLayerJs TILE_FOLDER_MAP city year st
      = some (absentStep city year st) ∧
    (absentStep city year st).histLayer = none ∧
    (absentStep city year st).warnings
      = st.warnings ++ [warnMsg city year] ∧
    (st.histLayer = none →
      absentStep city year st
        = { st with warnings := st.warnings ++ [warnMsg city year] }) ∧
    (∀ l, st.histLayer = some l →
      layerView (absentStep city year st)
        = (none, st.map1Layers.erase l.id)) := by
  have h1 : updateHistoricalLayerJs TILE_FOLDER_MAP city year st
      = some (absentStep city year st) := by
    unfold updateHistoricalLayerJs folderValJs readProp
    rcases h with ⟨hc, hp⟩ | ⟨yc, hc, hy, hp⟩ | ⟨yc, hc, hy⟩
    · simp [hc, hp]
    · simp [hc, hy, hp]
    · simp [hc, hy]
  refine ⟨h1, ?_, ?_, ?_, ?_⟩ <;>
    cases hl : st.histLayer <;> simp [absentStep, layerView, hl]

/-- Witness for C2 at city munich, year 1400 (explicit `null` entry). -/
theorem updateHistoricalLayerJs_absent_witness :
    updateHistoricalLayerJs TILE_FOLDER_MAP "munich" "1400" initialHistState
      = some (absentStep "munich" "1400" initialHistState) ∧
    (absentStep "munich" "1400" initialHistState).histLayer = none :=
  ⟨(updateHistoricalLayerJs_absent "munich" "1400" initialHistState
      (Or.inr (Or.inr ⟨[("1400", none), ("1500", none), ("1600", none),
        ("1888", some "muc-1888")], by decide, by decide⟩))).1,
   (updateHistoricalLayerJs_absent "munich" "1400" initialHistState
      (Or.inr (Or.inr ⟨[("1400", none), ("1500", none), ("1600", none),
        ("1888", some "muc-1888")], by decide, by decide⟩))).2.1⟩

/-- C3: whenever the catalog entry maps to a folder, the layer is bound to
exactly `tiles/<folder>/{z}/{x}/{y}.png`; from Absent a new tile layer is
created with minZoom 9, maxZoom 19, noWrap, and attached to map1; and the
dresden/1833 entry yields folder d_1833. -/
theorem updateHistoricalLayer_present (city year folder : String)
    (st : HistState)
    (hf : catalogLookup TILE_FOLDER_MAP city year = some folder) :
    (∀ l,
      (updateHistoricalLayer TILE_FOLDER_MAP city year st).histLayer = some l →
        l.url = "tiles/" ++ folder ++ "/{z}/{x}/{y}.png") ∧
    (updateHistoricalLayer TILE_FOLDER_MAP city year st).histLayer.isSome
      = true ∧
    (st.histLayer = none →
      updateHistoricalLayer TILE_FOLDER_MAP city year st
        = { st with
            histLayer := some
              { id := st.nextId,
                url := "tiles/" ++ folder ++ "/{z}/{x}/{y}.png",
                minZoom := 9, maxZoom := 19, tms := false, noWrap := true },
            map1Layers := st.map1Layers ++ [st.nextId],
            nextId := st.nextId + 1 }) ∧
    catalogLookup TILE_FOLDER_MAP "dresden" "1833" = some "d_1833" := by
  have hfalse := jsFalsy_of_tileFolder hf
  cases hl : st.histLayer with
  | none =>
    refine ⟨?_, ?_, ?_, by decide⟩ <;>
      simp [updateHistoricalLayer, hf, hfalse, hl]
  | some l =>
    refine ⟨?_, ?_, ?_, by decide⟩ <;>
      simp [updateHistoricalLayer, hf, hfalse, hl]

/-- Witness for C3: dresden 1833 from the initial state builds the layer
bound to tiles/d_1833/{z}/{x}/{y}.png. -/
theorem updateHistoricalLayer_present_witness :
    catalogLookup TILE_FOLDER_MAP "dresden" "1833" = some "d_1833" ∧
    updateHistoricalLayer TILE_FOLDER_MAP "dresden" "1833" initialHistState
      = { initialHistState with
          histLayer := some
            { id := 0, url := "tiles/d_1833/{z}/{x}/{y}.png",
              minZoom := 9, maxZoom := 19, tms := false, noWrap := true },
          map1Layers := [0], nextId := 1 } :=
  ⟨by decide,
   by
    have h := (updateHistoricalLayer_present "dresden" "1833" "d_1833"
        initialHistState (by decide)).2.2.1 rfl
    simpa [initialHistState] using h⟩

/-- C4: when a layer is Present and the new (city, year) also has a folder,
the very same layer instance is kept and only its URL template is rebound:
no new instance is created (fresh-id counter unchanged) and the attachment
to map1 is untouched (no detach/reattach). -/
theorem updateHistoricalLayer_rebind (city year folder : String)
    (st : HistState) (l : TileLayer) (hl : st.histLayer = some l)
    (hf : catalogLookup TILE_FOLDER_MAP city year = some folder) :
    updateHistoricalLayer TILE_FOLDER_MAP city year st
      = { st with
            histLayer := some ({ l with
              url := "tiles/" ++ folder ++ "/{z}/{x}/{y}.png" }) } ∧
    ((updateHistoricalLayer TILE_FOLDER_MAP city year st).histLayer.map
        TileLayer.id) = some l.id ∧
    (updateHistoricalLayer TILE_FOLDER_MAP city year st).map1Layers
      = st.map1Layers ∧
    (updateHistoricalLayer TILE_FOLDER_MAP city year st).nextId
      = st.nextId := by
  have hfalse := jsFalsy_of_tileFolder hf
  refine ⟨?_, ?_, ?_, ?_⟩ <;> simp [updateHistoricalLayer, hf, hfalse, hl]

/-- Witness for C4: vienna 1800 Present, switching to vienna 1833 rebinds
the same layer handle in place. -/
theorem updateHistoricalLayer_rebind_witness :
    updateHistoricalLayer TILE_FOLDER_MAP "vienna" "1833"
        { histLayer := some
            { id := 0, url := "tiles/vie-1800-folder/{z}/{x}/{y}.png",
              minZoom := 9, maxZoom := 19, tms := false, noWrap := true },
          map1Layers := [0], nextId := 1, warnings := [] }
      = { histLayer := some
            { id := 0, url := "tiles/v_1833/{z}/{x}/{y}.png",
              minZoom := 9, maxZoom := 19, tms := false, noWrap := true },
          map1Layers := [0], nextId := 1, warnings := [] } :=
  (updateHistoricalLayer_rebind "vienna" "1833" "v_1833"
    { histLayer := some
        { id := 0, url := "tiles/vie-1800-folder/{z}/{x}/{y}.png",
          minZoom := 9, maxZoom := 19, tms := false, noWrap := true },
      map1Layers := [0], nextId := 1, warnings := [] }
    { id := 0, url := "tiles/vie-1800-folder/{z}/{x}/{y}.png",
      minZoom := 9, maxZoom := 19, tms := false, noWrap := true }
    rfl (by decide)).1

/-- C5: the single-handle invariant — `histLayer` is null with nothing
attached, or holds the one layer that is attached to map1 — holds in the
initial state and is preserved by every `updateHistoricalLayer` call over
any catalog, so at most one historical layer ever exists. -/
theorem updateHistoricalLayer_single_handle (cat : Catalog)
    (city year : String) (st : HistState) (h : histInv st) :
    histInv (updateHistoricalLayer cat city year st) ∧
    (updateHistoricalLayer cat city year st).map1Layers.length ≤ 1 ∧
    histInv initialHistState := by
  have key : histInv (updateHistoricalLayer cat city year st) := by
    unfold histInv at h ⊢
    by_cases hf : jsFalsy (catalogLookup cat city year) = true
    · cases hl : st.histLayer with
      | none =>
        rw [hl] at h
        have h2 : st.map1Layers = [] := h
        simp [updateHistoricalLayer, hf, hl, h2]
      | some l =>
        rw [hl] at h
        have h2 : st.map1Layers = [l.id] := h
        simp [updateHistoricalLayer, hf, hl, h2]
    · cases hl : st.histLayer with
      | none =>
        rw [hl] at h
        have h2 : st.map1Layers = [] := h
        simp [updateHistoricalLayer, hf, hl, h2]
      | some l =>
        rw [hl] at h
        have h2 : st.map1Layers = [l.id] := h
        simp [updateHistoricalLayer, hf, hl, h2]
  refine ⟨key, ?_, by simp [histInv, initialHistState]⟩
  unfold histInv at key
  cases hl2 : (updateHistoricalLayer cat city year st).histLayer <;>
    rw [hl2] at key <;> simp [key]

/-- Witness for C5 at the initial state and munich 1888. -/
theorem updateHistoricalLayer_single_handle_witness :
    histInv initialHistState ∧
    histInv (updateHistoricalLayer TILE_FOLDER_MAP "munich" "1888"
      initialHistState) :=
  ⟨by simp [histInv, initialHistState],
   (updateHistoricalLayer_single_handle TILE_FOLDER_MAP "munich" "1888"
      initialHistState (by simp [histInv, initialHistState])).1⟩

/-- C9: `updateHistoricalLayer` is idempotent on the layer state proper
(the handle and its attachment to map1): running it twice with the same
arguments from any state gives the same layer state as running it once. -/
theorem updateHistoricalLayer_idem (cat : Catalog) (city year : String)
    (st : HistState) :
    layerView (updateHistoricalLayer cat city year
        (updateHistoricalLayer cat city year st))
      = layerView (updateHistoricalLayer cat city year st) := by
  by_cases hf : jsFalsy (catalogLookup cat city year) = true
  · cases hl : st.histLayer <;>
      simp [updateHistoricalLayer, hf, hl, layerView]
  · cases hl : st.histLayer <;>
      simp [updateHistoricalLayer, hf, hl, layerView]

/-- C10: the lookup merges a missing city, a missing year, the explicit
`null` marker and an empty-string folder into the same falsy check, so a
hypothetical empty-string catalog entry takes the Absent branch — the
whole call behaves exactly as with no catalog at all — rather than binding
the degenerate template `tiles//{z}/{x}/{y}.png`. -/
theorem updateHistoricalLayer_empty_folder (cat : Catalog)
    (city year : String) (st : HistState)
    (h : catalogLookup cat city year = some "") :
    (updateHistoricalLayer cat city year st).histLayer = none ∧
    updateHistoricalLayer cat city year st
      = updateHistoricalLayer [] city year st ∧
    (∀ o, jsFalsy o = true ↔ o = none ∨ o = some "") := by
  have hf : jsFalsy (catalogLookup cat city year) = true := by rw [h]; rfl
  have hnil : catalogLookup [] city year = none := rfl
  have hf2 : jsFalsy (catalogLookup [] city year) = true := by rw [hnil]; rfl
  refine ⟨?_, ?_, ?_⟩
  · cases hl : st.histLayer <;> simp [updateHistoricalLayer, hf, hl]
  · cases hl : st.histLayer <;>
      simp [updateHistoricalLayer, hf, hf2, hl]
  · intro o
    cases o with
    | none => simp [jsFalsy]
    | some s => simp [jsFalsy]

/-- Witness for C10 on a one-entry catalog whose folder is the empty
string. -/
theorem updateHistoricalLayer_empty_folder_witness :
    catalogLookup [("x", [("2000", some "")])] "x" "2000" = some "" ∧
    (updateHistoricalLayer [("x", [("2000", some "")])] "x" "2000"
        initialHistState).histLayer = none :=
  ⟨by decide,
   (updateHistoricalLayer_empty_folder [("x", [("2000", some "")])]
      "x" "2000" initialHistState (by decide)).1⟩

/-! ## Claim theorems: view sync, cursors, resolver, initialization -/

/-- C1: a move or zoom event on a panel, arriving with the shared guard
clear, performs exactly one `setView` — onto the other panel, with the
originating panel's current center and zoom, with `animate: false` — and
leaves the originating panel's view untouched; the nested move event the
copy fires on the other panel runs while the guard is set and performs no
sync back (the last conjunct: any `syncView` dispatch under a set guard is
a no-op), and the guard is clear again when the event finishes. -/
theorem syncView_sync_once (fuel : Nat) (p : Panel) (st : SyncState)
    (h : st.syncing = false) :
    viewOf p.other (onMoveEvent (fuel + 1) p st) = viewOf p st ∧
    viewOf p (onMoveEvent (fuel + 1) p st) = viewOf p st ∧
    (onMoveEvent (fuel + 1) p st).syncing = false ∧
    (onMoveEvent (fuel + 1) p st).calls
      = st.calls ++ [⟨p.other, viewOf p st, false⟩] ∧
    (∀ g q st2, st2.syncing = true → syncView g q q.other st2 = st2) := by
  have hguard : ∀ g q r st2, st2.syncing = true → syncView g q r st2 = st2 := by
    intro g q r st2 h2
    cases g with
    | zero => rfl
    | succ g => simp [syncView, h2]
  refine ⟨?_, ?_, ?_, ?_, fun g q st2 h2 => hguard g q q.other st2 h2⟩ <;>
    cases p <;>
      simp [onMoveEvent, syncView, h, Panel.other, viewOf, writeView, hguard]

/-- Witness for C1: a quiescent state where map1 sits at (1, 2, 13). -/
theorem syncView_sync_once_witness :
    viewOf Panel.one.other
        (onMoveEvent 1 Panel.one
          { view1 := { lat := 1, lng := 2, zoom := 13 },
            view2 := { lat := 3, lng := 4, zoom := 10 },
            syncing := false, calls := [] })
      = { lat := 1, lng := 2, zoom := 13 } :=
  (syncView_sync_once 0 Panel.one
      { view1 := { lat := 1, lng := 2, zoom := 13 },
        view2 := { lat := 3, lng := 4, zoom := 10 },
        syncing := false, calls := [] } rfl).1

/-- C6 counterexample: the page name constructor is outside the table, yet
the source's `cityMap['constructor']` hits the inherited truthy `Object`
constructor, so `getCurrentCity` leaks that prototype member instead of
resolving to munich, refuting the claim as stated. -/
theorem getCurrentCity_default_cex :
    "constructor" ∉ (["munich", "vienna", "dresden", "enschede", "index",
        ""] : List String) ∧
    getCurrentCity "/constructor.html"
      = CityResolution.protoLeak "constructor" ∧
    getCurrentCity "/constructor.html" ≠ CityResolution.city "munich" := by
  decide

/-- C6 (amended): the city resolver is total and never throws; it strips
the path and the .html extension, maps munich, vienna, dresden, enschede
to themselves and index and the empty name to munich, and maps every other
name to munich unless the name collides with an `Object.prototype`
property name, in which case the inherited prototype member is returned
instead of a city; in particular every name outside `protoKeys` resolves
to one of the four cities. -/
theorem getCurrentCity_resolution :
    (∀ pathname, getCurrentCity pathname = cityResolve (pageFilename pathname)) ∧
    cityResolve "munich" = .city "munich" ∧
    cityResolve "vienna" = .city "vienna" ∧
    cityResolve "dresden" = .city "dresden" ∧
    cityResolve "enschede" = .city "enschede" ∧
    cityResolve "index" = .city "munich" ∧
    cityResolve "" = .city "munich" ∧
    (∀ name,
      name ∉ (["munich", "vienna", "dresden", "enschede", "index", ""] :
          List String) →
      name ∉ protoKeys →
        cityResolve name = .city "munich") ∧
    (∀ name,
      name ∉ (["munich", "vienna", "dresden", "enschede", "index", ""] :
          List String) →
      name ∈ protoKeys →
        cityResolve name = .protoLeak name) ∧
    (∀ name, name ∉ protoKeys →
      (cityResolve name = .city "munich" ∨
       cityResolve name = .city "vienna" ∨
       cityResolve name = .city "dresden" ∨
       cityResolve name = .city "enschede")) := by
  have hb : ∀ name : String,
      name ∉ (["munich", "vienna", "dresden", "enschede", "index", ""] :
          List String) →
        cityMap.lookup name = none := by
    intro name h
    simp only [List.mem_cons, List.not_mem_nil, or_false, not_or] at h
    obtain ⟨h1, h2, h3, h4, h5, h6⟩ := h
    have b1 : (name == "munich") = false := beq_eq_false_iff_ne.mpr h1
    have b2 : (name == "vienna") = false := beq_eq_false_iff_ne.mpr h2
    have b3 : (name == "dresden") = false := beq_eq_false_iff_ne.mpr h3
    have b4 : (name == "enschede") = false := beq_eq_false_iff_ne.mpr h4
    have b5 : (name == "index") = false := beq_eq_false_iff_ne.mpr h5
    have b6 : (name == "") = false := beq_eq_false_iff_ne.mpr h6
    simp [cityMap, List.lookup, b1, b2, b3, b4, b5, b6]
  refine ⟨fun pathname => rfl,
    by decide, by decide, by decide, by decide, by decide, by decide,
    ?_, ?_, ?_⟩
  · intro name h hp
    simp [cityResolve, readProp, hb name h, hp]
  · intro name h hp
    simp [cityResolve, readProp, hb name h, hp]
  · intro name hp
    by_cases h : name ∈ (["munich", "vienna", "dresden", "enschede",
        "index", ""] : List String)
    · simp only [List.mem_cons, List.not_mem_nil, or_false] at h
      rcases h with rfl | rfl | rfl | rfl | rfl | rfl <;> decide
    · simp [cityResolve, readProp, hb name h, hp]

/-- Witness for C6: about resolves to munich; toString leaks the inherited
prototype member. -/
theorem getCurrentCity_resolution_witness :
    cityResolve "about" = CityResolution.city "munich" ∧
    cityResolve "toString" = CityResolution.protoLeak "toString" :=
  ⟨getCurrentCity_resolution.2.2.2.2.2.2.2.1 "about" (by decide) (by decide),
   getCurrentCity_resolution.2.2.2.2.2.2.2.2.1 "toString" (by decide)
     (by decide)⟩

/-- C7: a pointer-move on either panel puts both cursor indicators at the
pointer's offset from that panel's own top-left corner, so afterwards they
hold identical positions. -/
theorem updateCursors_mirror (rects : Panel → Rect) (p : Panel)
    (clientX clientY : ℚ) (st : CursorState) :
    (updateCursors rects p clientX clientY st).cursor1
        = (clientX - (rects p).left, clientY - (rects p).top) ∧
    (updateCursors rects p clientX clientY st).cursor2
        = (updateCursors rects p clientX clientY st).cursor1 :=
  ⟨rfl, rfl⟩

/-- C8: every city key of the coordinate table gives both map widgets the
city's default center at zoom 13, constrained to the (35, -10) to (71, 40)
bound box; and all four city keys have a coordinate entry. -/
theorem initMaps_views :
    (∀ city c, centerCoords.lookup city = some c →
      initMapViews city = some
        ({ center := c, zoom := 13, maxBounds := ((35, -10), (71, 40)),
           zoomControl := false, attributionControl := false },
         { center := c, zoom := 13, maxBounds := ((35, -10), (71, 40)),
           zoomControl := false, attributionControl := false })) ∧
    (∀ city,
      city ∈ (["munich", "vienna", "dresden", "enschede"] : List String) →
        (centerCoords.lookup city).isSome = true) := by
  constructor
  · intro city c h
    simp [initMapViews, h, bounds]
  · intro city h
    simp only [List.mem_cons, List.not_mem_nil, or_false] at h
    rcases h with rfl | rfl | rfl | rfl <;>
      simp [centerCoords, List.lookup]

/-- Witness for C8 at munich. -/
theorem initMaps_views_witness :
    initMapViews "munich" = some
      ({ center := (481351/10000, 115820/10000), zoom := 13,
         maxBounds := ((35, -10), (71, 40)),
         zoomControl := false, attributionControl := false },
       { center := (481351/10000, 115820/10000), zoom := 13,
         maxBounds := ((35, -10), (71, 40)),
         zoomControl := false, attributionControl := false }) :=
  initMaps_views.1 "munich" (481351/10000, 115820/10000)
    (by simp [centerCoords, List.lookup])

end CartoRewind
